import Mathlib

/-!
# DataGrid (Controls/datagrid.h)

A shallow embedding of the class declaration of `DataGrid`: the enumeration
`SelectionMode`, the table of `Q_PROPERTY` declarations and the member
declarations of each access section of the class, followed by the properties
proved about them.
-/

namespace DataGrid

/-! ## The enumeration `DataGrid::SelectionMode` (datagrid.h, lines 41-45) -/

/-- The enumerators of `enum SelectionMode`. -/
inductive SelectionMode where
  | NoSelection
  | SingleRow
  | MultipleRows
  deriving DecidableEq

/-- One `Q_PROPERTY(type name READ read [WRITE write] [NOTIFY notify])`. -/
structure QProperty where
  typeName : String
  name : String
  read : String
  write : Option String
  notify : Option String
  deriving DecidableEq

/-- The property declarations of the class, in source order. -/
def properties : List QProperty :=
  [ QProperty.mk "bool" "backgroundEnabled" "backgroundEnabled"
      (some "setBackgroundEnabled") (some "backgroundEnabledChanged"),
    QProperty.mk "bool" "isReadOnly" "isReadOnly"
      (some "setIsReadOnly") (some "isReadOnlyChanged"),
    QProperty.mk "bool" "sortEnabled" "sortEnabled"
      (some "setSortEnabled") (some "sortEnabledChanged"),
    QProperty.mk "DataGridItemLayout*" "itemLayout" "itemLayout" none none,
    QProperty.mk "int" "currentIndex" "currentIndex"
      (some "setCurrentIndex") (some "currentIndexChanged"),
    QProperty.mk "int" "itemHeight" "itemHeight"
      (some "setItemHeight") (some "itemHeightChanged"),
    QProperty.mk "int" "rowCount" "rowCount" none (some "rowCountChanged"),
    QProperty.mk "QAbstractItemModel*" "model" "model"
      (some "setModel") (some "modelChanged"),
    QProperty.mk "qreal" "headerHeight" "headerHeight" none (some "headerHeightChanged"),
    QProperty.mk "qreal" "layoutWidth" "layoutWidth" none (some "layoutWidthChanged"),
    QProperty.mk "QString" "alternativeRowBackground" "alternativeRowBackground"
      (some "setAlternativeRowBackground") (some "alternativeRowBackgroundChanged"),
    QProperty.mk "QString" "headerBackground" "headerBackground"
      (some "setHeaderBackground") (some "headerBackgroundChanged"),
    QProperty.mk "QString" "highlightColor" "highlightColor"
      (some "setHighlightColor") (some "highlightColorChanged"),
    QProperty.mk "QString" "inactiveHighlightColor" "inactiveHighlightColor"
      (some "setInactiveHighlightColor") (some "inactiveHighlightColorChanged"),
    QProperty.mk "QString" "observablePropertyName" "observablePropertyName"
      (some "setObservablePropertyName") (some "observablePropertyNameChanged"),
    QProperty.mk "Qt::CaseSensitivity" "filterCaseSensitivity" "filterCaseSensitivity"
      (some "setFilterCaseSensitivity") none,
    QProperty.mk "SelectionMode" "selectionMode" "selectionMode"
      (some "setSelectionMode") (some "selectionModeChanged") ]

/-! ## The member function declarations (datagrid.h, lines 49-139 and 167-172) -/

/-- The access sections of the class body. -/
inductive Access where
  | publicMembers
  | privateMembers
  | protectedMembers
  | privateSlots
  | publicSlots
  | signals
  deriving DecidableEq

/-- One member function declaration: the section it stands in, its return
type (empty for the constructor), its name, the types of its parameters, and
whether it is declared `const`. -/
structure Member where
  access : Access
  returnType : String
  name : String
  params : List String
  isConst : Bool
  deriving DecidableEq

/-- The declarations of the first `public:` section (lines 49-74). -/
def publicMembers : List Member :=
  [ Member.mk .publicMembers "" "DataGrid" ["QQuickItem*"] false,
    Member.mk .publicMembers "bool" "backgroundEnabled" [] true,
    Member.mk .publicMembers "bool" "isReadOnly" [] true,
    Member.mk .publicMembers "bool" "sortEnabled" [] true,
    Member.mk .publicMembers "DataGridColumn*" "getColumnByIndex" ["int"] false,
    Member.mk .publicMembers "DataGridColumn*" "getColumnByRole" ["QString"] false,
    Member.mk .publicMembers "DataGridItemLayout*" "itemLayout" [] true,
    Member.mk .publicMembers "int" "currentIndex" [] true,
    Member.mk .publicMembers "int" "getColumnIndex" ["DataGridColumn*"] false,
    Member.mk .publicMembers "int" "itemHeight" [] true,
    Member.mk .publicMembers "int" "rowCount" [] true,
    Member.mk .publicMembers "QAbstractItemModel*" "model" [] true,
    Member.mk .publicMembers "QList<DataGridColumn*>" "columns" [] true,
    Member.mk .publicMembers "qreal" "headerHeight" [] true,
    Member.mk .publicMembers "qreal" "layoutWidth" [] true,
    Member.mk .publicMembers "QSortFilterProxyModel*" "sortFilterProxyModel" [] true,
    Member.mk .publicMembers "QString" "alternativeRowBackground" [] true,
    Member.mk .publicMembers "QString" "headerBackground" [] true,
    Member.mk .publicMembers "QString" "highlightColor" [] true,
    Member.mk .publicMembers "QString" "inactiveHighlightColor" [] true,
    Member.mk .publicMembers "QString" "observablePropertyName" [] true,
    Member.mk .publicMembers "Qt::CaseSensitivity" "filterCaseSensitivity" [] true,
    Member.mk .publicMembers "SelectionMode" "selectionMode" [] true,
    Member.mk .publicMembers "void" "decrementCurrentIndex" [] false,
    Member.mk .publicMembers "void" "incrementCurrentIndex" [] false,
    Member.mk .publicMembers "void" "selectRow" ["int", "QMouseEvent*"] false ]

/-- The declarations of the first `private:` section (lines 77-88). -/
def privateMembers : List Member :=
  [ Member.mk .privateMembers "DataGridRowPresenter*" "popItemFromPool" [] false,
    Member.mk .privateMembers "int" "getFirstDisplayedIndex" [] false,
    Member.mk .privateMembers "int" "getLastDisplayedIndex" [] false,
    Member.mk .privateMembers "int" "getRowOffset" ["int"] false,
    Member.mk .privateMembers "QPair<int, int>" "displayedRowRange" [] false,
    Member.mk .privateMembers "void" "alignRow" ["int"] false,
    Member.mk .privateMembers "void" "alignRowToBottom" ["int"] false,
    Member.mk .privateMembers "void" "alignRowToTop" ["int"] false,
    Member.mk .privateMembers "void" "clearRows" [] false,
    Member.mk .privateMembers "void" "populateRows" [] false,
    Member.mk .privateMembers "void" "pushItemToPool" ["DataGridRowPresenter*"] false,
    Member.mk .privateMembers "void" "updateScrollBar" [] false ]

/-- The declarations of the `private slots:` section (lines 91-97). -/
def privateSlots : List Member :=
  [ Member.mk .privateSlots "void" "modelDataChanged"
      ["const QModelIndex&", "const QModelIndex&", "const QVector<int>&"] false,
    Member.mk .privateSlots "void" "modelLayoutChanged"
      ["const QList<QPersistentModelIndex>&", "QAbstractItemModel::LayoutChangeHint"] false,
    Member.mk .privateSlots "void" "modelReset" [] false,
    Member.mk .privateSlots "void" "modelRowsInserted"
      ["const QModelIndex&", "int", "int"] false,
    Member.mk .privateSlots "void" "modelRowsMoved"
      ["const QModelIndex&", "int", "int", "const QModelIndex&", "int"] false,
    Member.mk .privateSlots "void" "modelRowsRemoved"
      ["const QModelIndex&", "int", "int"] false,
    Member.mk .privateSlots "void" "rowHeightChanged" [] false ]

/-- The declarations of the `public slots:` section (lines 100-117). -/
def publicSlots : List Member :=
  [ Member.mk .publicSlots "bool" "isRowSelected" ["int"] false,
    Member.mk .publicSlots "QVariant" "getUnfilteredValue" ["int", "QString"] false,
    Member.mk .publicSlots "bool" "filterAcceptsRowHandler"
      ["int", "const QModelIndex&"] false,
    Member.mk .publicSlots "QObject*" "getObservableObject" ["int"] false,
    Member.mk .publicSlots "void" "setAlternativeRowBackground" ["QString"] false,
    Member.mk .publicSlots "void" "setBackgroundEnabled" ["bool"] false,
    Member.mk .publicSlots "void" "setCurrentIndex" ["int", "bool"] false,
    Member.mk .publicSlots "void" "setFilterCaseSensitivity" ["Qt::CaseSensitivity"] false,
    Member.mk .publicSlots "void" "setHeaderBackground" ["QString"] false,
    Member.mk .publicSlots "void" "setHighlightColor" ["QString"] false,
    Member.mk .publicSlots "void" "setInactiveHighlightColor" ["QString"] false,
    Member.mk .publicSlots "void" "setIsReadOnly" ["bool"] false,
    Member.mk .publicSlots "void" "setItemHeight" ["int"] false,
    Member.mk .publicSlots "void" "setModel" ["QAbstractItemModel*"] false,
    Member.mk .publicSlots "void" "setObservablePropertyName" ["QString"] false,
    Member.mk .publicSlots "void" "setSelectionMode" ["SelectionMode"] false,
    Member.mk .publicSlots "void" "setSortEnabled" ["bool"] false,
    Member.mk .publicSlots "void" "updateVisibleRange" ["bool"] false ]

/-- The declarations of the `signals:` section (lines 120-139). -/
def signals : List Member :=
  [ Member.mk .signals "void" "alternativeRowBackgroundChanged" [] false,
    Member.mk .signals "void" "backgroundEnabledChanged" ["bool"] false,
    Member.mk .signals "void" "columnsChanged" ["QList<DataGridColumn*>"] false,
    Member.mk .signals "void" "currentIndexChanged" ["int"] false,
    Member.mk .signals "void" "filterAcceptsRow" ["FilterAcceptsRowEventArgs*"] false,
    Member.mk .signals "void" "headerBackgroundChanged" [] false,
    Member.mk .signals "void" "headerHeightChanged" [] false,
    Member.mk .signals "void" "highlightColorChanged" [] false,
    Member.mk .signals "void" "inactiveHighlightColorChanged" [] false,
    Member.mk .signals "void" "isReadOnlyChanged" ["bool"] false,
    Member.mk .signals "void" "itemHeightChanged" ["int"] false,
    Member.mk .signals "void" "layoutWidthChanged" [] false,
    Member.mk .signals "void" "modelChanged" ["QAbstractItemModel*"] false,
    Member.mk .signals "void" "observableObjectRequest" ["ObservableObjectEventArgs*"] false,
    Member.mk .signals "void" "observablePropertyNameChanged" ["QString"] false,
    Member.mk .signals "void" "rowCountChanged" [] false,
    Member.mk .signals "void" "selectionChanged" [] false,
    Member.mk .signals "void" "selectionModeChanged" ["SelectionMode"] false,
    Member.mk .signals "void" "sortEnabledChanged" ["bool"] false,
    Member.mk .signals "void" "userEvent" ["QString", "QVariant"] false ]

/-- The declarations of the trailing `public:` and `protected:` sections
(lines 167-172). -/
def overrides : List Member :=
  [ Member.mk .publicMembers "void" "componentComplete" [] false,
    Member.mk .protectedMembers "void" "keyPressEvent" ["QKeyEvent*"] false,
    Member.mk .protectedMembers "void" "mousePressEvent" ["QMouseEvent*"] false ]

/-- Every member function declaration of the class, in source order. -/
def members : List Member :=
  publicMembers ++ privateMembers ++ privateSlots ++ publicSlots ++ signals ++ overrides

/-! ## Reading the declarations -/

/-- The name `set<PropertyName>`: `set` followed by the property name with its
first letter in upper case. -/
def setterName (property : String) : String :=
  match property.data with
  | [] => "set"
  | c :: cs => String.mk ('s' :: 'e' :: 't' :: c.toUpper :: cs)

/-- A property is read-only when it declares `READ` but no `WRITE`. -/
def QProperty.isReadOnly (p : QProperty) : Bool :=
  p.write.isNone

/-- Some declaration named `f` stands in the section `a`. -/
def declaredIn (a : Access) (f : String) : Bool :=
  members.any (fun m => decide (m.access = a) && decide (m.name = f))

/-- Some declaration named `f` is a public `const` member function. -/
def declaredPublicConst (f : String) : Bool :=
  members.any (fun m =>
    decide (m.access = Access.publicMembers) && decide (m.name = f) && m.isConst)

/-- The names of the properties satisfying `q`, in source order. -/
def propertyNames (q : QProperty → Bool) : List String :=
  (properties.filter q).map QProperty.name

/-- The `NOTIFY` signals the properties declare, in source order. -/
def notifySignals : List String :=
  properties.filterMap QProperty.notify

/-- The declared `NOTIFY` signal of `p`, when there is one, stands in the
`signals:` section. -/
def notifyDeclared (p : QProperty) : Bool :=
  match p.notify with
  | some s => declaredIn Access.signals s
  | none => false

/-! ## Helper lemmas -/

lemma SelectionMode.cases_all (m : SelectionMode) :
    m = SelectionMode.NoSelection ∨ m = SelectionMode.SingleRow ∨
      m = SelectionMode.MultipleRows := by
  cases m <;> simp

lemma notifyDeclared_spec (p : QProperty) (h : notifyDeclared p = true) :
    ∃ s, p.notify = some s ∧ declaredIn Access.signals s = true := by
  unfold notifyDeclared at h
  cases hn : p.notify with
  | none => rw [hn] at h; exact absurd h (by decide)
  | some s => rw [hn] at h; exact ⟨s, rfl, h⟩

/-! ## The properties proved -/

/-- C4: the class declares 17 properties, with pairwise distinct names; the
read-only ones (READ without WRITE) are exactly `itemLayout`, `rowCount`,
`headerHeight` and `layoutWidth`; every other property declares the WRITE
accessor `set<PropertyName>`, and that name is declared in the `public slots:`
section; every READ accessor of a property is declared as a public `const`
member function. -/
theorem properties_accessors :
    properties.length = 17 ∧
    (properties.map QProperty.name).Nodup ∧
    propertyNames QProperty.isReadOnly =
      ["itemLayout", "rowCount", "headerHeight", "layoutWidth"] ∧
    (∀ p ∈ properties, p.isReadOnly = false →
      p.write = some (setterName p.name) ∧
        declaredIn Access.publicSlots (setterName p.name) = true) ∧
    (∀ p ∈ properties, declaredPublicConst p.read = true) := by
  refine ⟨rfl, ?_, ?_, ?_, ?_⟩ <;> decide

/-- C5: every property other than `itemLayout` and `filterCaseSensitivity`
declares a NOTIFY signal, and that signal is declared in the `signals:`
section; two properties that declare the same NOTIFY signal are the same
property; the properties that declare no NOTIFY signal are exactly `itemLayout`,
which is read-only, and `filterCaseSensitivity`, which is writable. -/
theorem properties_notify :
    (∀ p ∈ properties, p.name ≠ "itemLayout" → p.name ≠ "filterCaseSensitivity" →
      ∃ s, p.notify = some s ∧ declaredIn Access.signals s = true) ∧
    (∀ p ∈ properties, ∀ q ∈ properties,
      p.notify.isSome = true → p.notify = q.notify → p = q) ∧
    notifySignals.Nodup ∧
    propertyNames (fun p => p.notify.isNone) = ["itemLayout", "filterCaseSensitivity"] ∧
    (∀ p ∈ properties, p.name = "itemLayout" → p.isReadOnly = true) ∧
    (∀ p ∈ properties, p.name = "filterCaseSensitivity" → p.isReadOnly = false) := by
  refine ⟨?_, ?_, ?_, ?_, ?_, ?_⟩
  · have h : ∀ p ∈ properties, p.name ≠ "itemLayout" →
        p.name ≠ "filterCaseSensitivity" → notifyDeclared p = true := by decide
    intro p hp h1 h2
    exact notifyDeclared_spec p (h p hp h1 h2)
  all_goals decide

end DataGrid
